import Mathlib

/-!
Verification of the fluid solver in src/cpp/fluidSim/src/FluidGrid.cpp.

Embedding choices:
* Machine `float` arithmetic is idealised as exact rational arithmetic (ℚ).
  Every formula is transcribed operation-for-operation from the source; in ℚ
  the vectorised (AVX) paths and the scalar remainder paths of each kernel
  compute identical values (the fused multiply-adds only reassociate the same
  sums and products), so one per-cell formula models both.
* Buffers are flattened row-major `size*size` float arrays in the source,
  indexed by `x + y*size`; they are modelled two-dimensionally as functions
  `Nat → Nat → ℚ`.  All source accesses keep both indices below `size`, so the
  two views agree.
* The source shuffles raw pointers (`std::swap` on members and on local
  parameters).  To capture which physical allocation holds which data — the
  point of several claims — the model keeps a `Store : Nat → Grid` of physical
  buffers and the `FluidGrid` members are buffer ids into the store.
* `ThreadPool::computeOnThreads` is not under src/ (only FluidGrid.cpp is).
  Per the spec, it partitions a row range between workers and joins them; the
  spec's §3 invariant states that stencil kernels write interior rows only
  (rows `1..size-2`), boundary rows being written solely by `setBounds`.  A
  parallel pass is therefore modelled as the kernel body applied to every
  interior row, which is also exactly the row set the in-src `advectLoop`
  iterates on its own.
-/

/-- An `N×N` float buffer, idealised: cell `(x, y)` of `arr` is `arr[x + y*N]`. -/
abbrev Grid := Nat → Nat → ℚ

/-- The pool of physical buffer allocations, indexed by buffer id. -/
abbrev Store := Nat → Grid

/-- The all-zero buffer (`calloc` zero-initialisation). -/
def zeroGrid : Grid := fun _ _ => 0

/-- Write physical buffer `i` of the store. -/
def setBuf (st : Store) (i : Nat) (g : Grid) : Store :=
  fun j => if j = i then g else st j

/-- Cell `(x,y)` is interior: `1 ≤ x,y ≤ N-2`.  These are exactly the cells the
stencil loops `for (x = 1; x < size-1; x++)` (and the row loops) touch. -/
def inInterior (N x y : Nat) : Prop :=
  1 ≤ x ∧ x + 2 ≤ N ∧ 1 ≤ y ∧ y + 2 ≤ N

instance (N x y : Nat) : Decidable (inInterior N x y) :=
  inferInstanceAs (Decidable (1 ≤ x ∧ x + 2 ≤ N ∧ 1 ≤ y ∧ y + 2 ≤ N))

/-- `Direction` from FluidGrid.h, as used by `setBounds`. -/
inductive Direction
  | NONE
  | HORIZONTAL
  | VERTICAL
deriving DecidableEq

/-- Left/right edge rule of `setBounds`: negate the neighbour for the
`HORIZONTAL` direction, copy it otherwise (FluidGrid.cpp lines 414-415). -/
def reflectH (dir : Direction) (v : ℚ) : ℚ :=
  if dir = Direction.HORIZONTAL then -v else v

/-- Top/bottom edge rule of `setBounds`: negate the neighbour for the
`VERTICAL` direction, copy it otherwise (FluidGrid.cpp lines 418-419). -/
def reflectV (dir : Direction) (v : ℚ) : ℚ :=
  if dir = Direction.VERTICAL then -v else v

/-- The edge loop of `FluidGrid::setBounds` (lines 412-420): for every
`i = 1..size-2` the four edge cells `(0,i)`, `(size-1,i)`, `(i,0)`,
`(i,size-1)` are rewritten from their interior neighbours. -/
def setBoundsEdges (dir : Direction) (N : Nat) (g : Grid) : Grid := fun x y =>
  if x = 0 ∧ 1 ≤ y ∧ y + 2 ≤ N then reflectH dir (g 1 y)
  else if x = N - 1 ∧ 1 ≤ y ∧ y + 2 ≤ N then reflectH dir (g (N - 2) y)
  else if y = 0 ∧ 1 ≤ x ∧ x + 2 ≤ N then reflectV dir (g x 1)
  else if y = N - 1 ∧ 1 ≤ x ∧ x + 2 ≤ N then reflectV dir (g x (N - 2))
  else g x y

/-- `FluidGrid::setBounds` (lines 411-427): the edge pass, then the four
corners as averages of their two already-updated edge neighbours (the
order dependency of the source is preserved: corners read `e`, the
post-edge-pass buffer). -/
def setBoundsG (dir : Direction) (N : Nat) (g : Grid) : Grid :=
  let e := setBoundsEdges dir N g
  fun x y =>
    if x = 0 ∧ y = 0 then (1/2) * (e 1 0 + e 0 1)
    else if x = N - 1 ∧ y = 0 then (1/2) * (e (N - 2) 0 + e (N - 1) 1)
    else if x = 0 ∧ y = N - 1 then (1/2) * (e 0 (N - 2) + e 1 (N - 1))
    else if x = N - 1 ∧ y = N - 1 then (1/2) * (e (N - 2) (N - 1) + e (N - 1) (N - 2))
    else e x y

/-- One full parallel pass of `FluidGrid::linearSolveLoop` (lines 366-409),
writing the scratch buffer: every interior cell of `tmp` becomes
`(prevArr[cell] + k*(up + down + left + right)) * reciprocalScaling`, the
neighbours read from `arr`; all other cells of `tmp` keep their old value. -/
def linearSolveLoopG (N : Nat) (k rs : ℚ) (arr prevArr tmpOld : Grid) : Grid := fun x y =>
  if inInterior N x y then
    (prevArr x y + k * (arr x (y - 1) + arr x (y + 1) + arr (x - 1) y + arr (x + 1) y)) * rs
  else tmpOld x y

/-- One relaxation iteration as a pure function of the current solve-target
contents: the stencil pass followed by `setBounds` (the buffer written by the
pass has its whole boundary ring rewritten by `setBounds`, so on in-grid
cells the result depends only on `g` and `prevG`). -/
def relaxIterG (dir : Direction) (N : Nat) (k rs : ℚ) (prevG : Grid) (g : Grid) : Grid :=
  setBoundsG dir N (linearSolveLoopG N k rs g prevG g)

/-- One iteration of the loop in `FluidGrid::linearSolve` (lines 347-363) on
`(store, arr pointer, tmp member pointer)`: the parallel stencil pass writes
the physical buffer `tmpId`; `std::swap(tmp, arr)` exchanges the member `tmp`
with the *local parameter* `arr`; `setBounds` is applied to the new `arr`. -/
def lsIter (dir : Direction) (N : Nat) (k rs : ℚ) (prevId : Nat) :
    Store × Nat × Nat → Store × Nat × Nat := fun s =>
  let st := s.1
  let arrId := s.2.1
  let tmpId := s.2.2
  let st1 := setBuf st tmpId (linearSolveLoopG N k rs (st arrId) (st prevId) (st tmpId))
  let st2 := setBuf st1 tmpId (setBoundsG dir N (st1 tmpId))
  (st2, tmpId, arrId)

/-- The iteration loop of `FluidGrid::linearSolve`, run `n` times. -/
def lsRun (dir : Direction) (N : Nat) (k rs : ℚ) (prevId : Nat) :
    Nat → Store × Nat × Nat → Store × Nat × Nat
  | 0, s => s
  | n + 1, s => lsRun dir N k rs prevId n (lsIter dir N k rs prevId s)

/-- `FluidGrid::linearSolve` (lines 342-364): Jacobi relaxation for a fixed
iteration count; returns the store, the final value of the local `arr`
parameter and the final member `tmp`.  `reciprocalScaling = 1/scaling`. -/
def linearSolveG (dir : Direction) (iterations N : Nat) (k scaling : ℚ)
    (arrId prevId : Nat) (st : Store) (tmpId : Nat) : Store × Nat × Nat :=
  lsRun dir N k (1 / scaling) prevId iterations (st, arrId, tmpId)

/-- `FluidGrid::diffuse` (lines 334-339): `neighborDiffusion = rate*dt*N*N`,
`scaling = 1 + 4*neighborDiffusion`, then `linearSolve`. -/
def diffuseG (dir : Direction) (iterations N : Nat) (dt rate : ℚ)
    (arrId prevId : Nat) (st : Store) (tmpId : Nat) : Store × Nat × Nat :=
  let nd := rate * dt * (N : ℚ) * (N : ℚ)
  linearSolveG dir iterations N nd (1 + 4 * nd) arrId prevId st tmpId

/-- The per-cell body of `FluidGrid::advectLoop` (scalar path, lines 186-219):
backtrace along the transport field scaled by `dt*size`, clamp into
`[0.5, size-1.5]`, truncate (the clamped coordinates are positive, so the
`(int)` cast is the floor), and bilinearly interpolate the previous field. -/
def advectCell (N : Nat) (dt : ℚ) (velX velY prevArr : Grid) (x y : Nat) : ℚ :=
  let scaling := dt * (N : ℚ)
  let maxClamp : ℚ := (N : ℚ) - 3/2
  let px := min (max ((x : ℚ) - velX x y * scaling) (1/2)) maxClamp
  let py := min (max ((y : ℚ) - velY x y * scaling) (1/2)) maxClamp
  let pxi := (⌊px⌋).toNat
  let pyi := (⌊py⌋).toNat
  let dx := px - (pxi : ℚ)
  let rdx := 1 - dx
  let dy := py - (pyi : ℚ)
  let rdy := 1 - dy
  rdx * (rdy * prevArr pxi pyi + dy * prevArr pxi (pyi + 1)) +
    dx * (rdy * prevArr (pxi + 1) pyi + dy * prevArr (pxi + 1) (pyi + 1))

set_option linter.unusedVariables false in
/-- `FluidGrid::advectLoop` (lines 112-221).  The function receives a worker
row range `[startIndex, endIndex)`, but — exactly as in the source — its row
loop is `for (int y = 1; y < size - 1; y++)`: the parameters are ignored and
every interior row is processed regardless of the assigned range. -/
def advectLoopG (startIndex endIndex N : Nat) (dt : ℚ)
    (velX velY prevArr arrOld : Grid) : Grid := fun x y =>
  if inInterior N x y then advectCell N dt velX velY prevArr x y
  else arrOld x y

/-- `FluidGrid::advect` (lines 101-110): the parallel advection pass on the
buffer `arrId`, then `setBounds`. -/
def advectG (dir : Direction) (N : Nat) (dt : ℚ)
    (arrId prevArrId velXId velYId : Nat) (st : Store) : Store :=
  let st1 := setBuf st arrId
    (advectLoopG 1 (N - 1) N dt (st velXId) (st velYId) (st prevArrId) (st arrId))
  setBuf st1 arrId (setBoundsG dir N (st1 arrId))

/-- Divergence formula of `FluidGrid::projectHeightMapLoop` (lines 277-284):
`-0.5 * (velX[left] - velX[right] + velY[up] - velY[down]) * (1/size)`. -/
def divergenceCell (N : Nat) (velX velY : Grid) (x y : Nat) : ℚ :=
  -(1/2) * (velX (x - 1) y - velX (x + 1) y + velY x (y - 1) - velY x (y + 1)) * (1 / (N : ℚ))

/-- The divergence half of the `projectHeightMapLoop` pass: interior cells of
the `div` buffer get the divergence, the rest is untouched. -/
def projectHeightMapDiv (N : Nat) (velX velY divOld : Grid) : Grid := fun x y =>
  if inInterior N x y then divergenceCell N velX velY x y else divOld x y

/-- The pressure half of the `projectHeightMapLoop` pass (line 273 / 283):
interior cells of `p` are set to zero, the rest is untouched. -/
def projectHeightMapP (N : Nat) (pOld : Grid) : Grid := fun x y =>
  if inInterior N x y then 0 else pOld x y

/-- X half of `FluidGrid::projectMassConservLoop` (line 327):
`velocityX[cell] -= 0.5 * (p[left] - p[right]) * size` on interior cells. -/
def massConservX (N : Nat) (p vel : Grid) : Grid := fun x y =>
  if inInterior N x y then vel x y - (1/2) * (p (x - 1) y - p (x + 1) y) * (N : ℚ)
  else vel x y

/-- Y half of `FluidGrid::projectMassConservLoop` (line 328):
`velocityY[cell] -= 0.5 * (p[up] - p[down]) * size` on interior cells. -/
def massConservY (N : Nat) (p vel : Grid) : Grid := fun x y =>
  if inInterior N x y then vel x y - (1/2) * (p x (y - 1) - p x (y + 1)) * (N : ℚ)
  else vel x y

/-- `FluidGrid::project` (lines 224-241): divergence/pressure pass, bounds on
both, the pressure Poisson solve (`linearSolve` with `k=1`, `scaling=4` — note
the solve swaps the member `tmp` with its own *local* copy of `p`, so the
`p` pointer used by the mass-conservation pass below is unaffected by those
swaps), the gradient subtraction (which writes the member velocity buffers:
in every call of `step` the parameters equal the members `velocityX` /
`velocityY`), and bounds on the two velocity buffers.  Returns the store and
the new member `tmp`. -/
def projectG (iterations N : Nat) (vxId vyId pId divId : Nat)
    (st : Store) (tmpId : Nat) : Store × Nat :=
  let st1 := setBuf st divId (projectHeightMapDiv N (st vxId) (st vyId) (st divId))
  let st2 := setBuf st1 pId (projectHeightMapP N (st1 pId))
  let st3 := setBuf st2 divId (setBoundsG Direction.NONE N (st2 divId))
  let st4 := setBuf st3 pId (setBoundsG Direction.NONE N (st3 pId))
  let r := linearSolveG Direction.NONE iterations N 1 4 pId divId st4 tmpId
  let st5 := r.1
  let st6 := setBuf st5 vxId (massConservX N (st5 pId) (st5 vxId))
  let st7 := setBuf st6 vyId (massConservY N (st6 pId) (st6 vyId))
  let st8 := setBuf st7 vxId (setBoundsG Direction.HORIZONTAL N (st7 vxId))
  let st9 := setBuf st8 vyId (setBoundsG Direction.VERTICAL N (st8 vyId))
  (st9, r.2.2)

/-- `FluidGrid::fadeDensity` (lines 429-436): every interior cell is scaled
by `1 - dt*fadeRate*size`. -/
def fadeDensityG (N : Nat) (dt fadeRate : ℚ) (g : Grid) : Grid := fun x y =>
  if inInterior N x y then g x y * (1 - dt * fadeRate * (N : ℚ)) else g x y

/-- The `FluidGrid` object: the store of physical buffers plus the seven
member pointers, each a buffer id. -/
structure FGState where
  buf : Store
  density : Nat
  prevDensity : Nat
  velocityX : Nat
  prevVelocityX : Nat
  velocityY : Nat
  prevVelocityY : Nat
  tmp : Nat

/-- The constructor state (lines 7-30): seven freshly `calloc`ed, hence
zeroed, distinct buffers. -/
def initState : FGState :=
  { buf := fun _ => zeroGrid
    density := 0, prevDensity := 1
    velocityX := 2, prevVelocityX := 3
    velocityY := 4, prevVelocityY := 5
    tmp := 6 }

/-- `FluidGrid::addDensity` (lines 96-98): `density[x + y*size] += amount*dt*size`. -/
def addDensityG (N x y : Nat) (amount dt : ℚ) (s : FGState) : FGState :=
  let g : Grid := fun a b =>
    if a = x ∧ b = y then s.buf s.density a b + amount * dt * (N : ℚ)
    else s.buf s.density a b
  { s with buf := setBuf s.buf s.density g }

/-- `FluidGrid::step` (lines 44-89), timers elided.  The `std::swap` calls on
members are modelled by re-binding the member ids; `diffuse`/`linearSolve`
update the member `tmp` (their swap acts on the *local* `arr` parameter, so
the member field that was passed keeps pointing at the originally passed
buffer — the source behaviour this model exists to capture). -/
def stepG (N : Nat) (dt : ℚ) (iterations : Nat)
    (diffusionRate viscosity fadeRate : ℚ) (s : FGState) : FGState :=
  -- swap(velocityX, prevVelocityX); diffuse X velocity
  let vx0 := s.prevVelocityX
  let pvx0 := s.velocityX
  let r1 := diffuseG Direction.HORIZONTAL iterations N dt viscosity vx0 pvx0 s.buf s.tmp
  -- swap(velocityY, prevVelocityY); diffuse Y velocity
  let vy0 := s.prevVelocityY
  let pvy0 := s.velocityY
  let r2 := diffuseG Direction.VERTICAL iterations N dt viscosity vy0 pvy0 r1.1 r1.2.2
  -- project(iterations, velocityX, velocityY, prevVelocityX, prevVelocityY)
  let r3 := projectG iterations N vx0 vy0 pvx0 pvy0 r2.1 r2.2.2
  -- swap(velocityX, prevVelocityX); swap(velocityY, prevVelocityY); self advection
  let vx1 := pvx0
  let pvx1 := vx0
  let vy1 := pvy0
  let pvy1 := vy0
  let b4 := advectG Direction.HORIZONTAL N dt vx1 pvx1 pvx1 pvy1 r3.1
  let b5 := advectG Direction.VERTICAL N dt vy1 pvy1 pvx1 pvy1 b4
  -- project(iterations, velocityX, velocityY, prevVelocityX, prevVelocityY)
  let r4 := projectG iterations N vx1 vy1 pvx1 pvy1 b5 r3.2
  -- swap(density, prevDensity); diffuse density
  let d1 := s.prevDensity
  let pd1 := s.density
  let r5 := diffuseG Direction.NONE iterations N dt diffusionRate d1 pd1 r4.1 r4.2
  -- swap(density, prevDensity); advect density
  let d2 := pd1
  let pd2 := d1
  let b8 := advectG Direction.NONE N dt d2 pd2 vx1 vy1 r5.1
  -- fade the density
  let b9 := setBuf b8 d2 (fadeDensityG N dt fadeRate (b8 d2))
  { buf := b9
    density := d2, prevDensity := pd2
    velocityX := vx1, prevVelocityX := pvx1
    velocityY := vy1, prevVelocityY := pvy1
    tmp := r5.2.2 }

/-- Sum of the interior density cells (the cells `fadeDensity` touches). -/
def interiorSum (N : Nat) (g : Grid) : ℚ :=
  ∑ x in Finset.range N, ∑ y in Finset.range N,
    if inInterior N x y then g x y else 0

/-- Allocation-success check of the `FluidGrid` constructor (line 21): the
throw condition tests exactly the six field buffers
`density && prevDensity && velocityX && prevVelocityX && velocityY &&
prevVelocityY` — buffer 6, `tmp`, is not part of the test.  Buffer order:
0 density, 1 prevDensity, 2 velocityX, 3 prevVelocityX, 4 velocityY,
5 prevVelocityY, 6 tmp. -/
def fluidGridAllocCheck (alloc : Fin 7 → Bool) : Bool :=
  alloc 0 && alloc 1 && alloc 2 && alloc 3 && alloc 4 && alloc 5

/-- Whether the constructor throws (`std::runtime_error`, line 22) for a given
pattern of allocation outcomes (`alloc i = false`: allocation `i` returned
null).  The grid size does not enter the check. -/
def fluidGridConstructorThrows (_size : Nat) (alloc : Fin 7 → Bool) : Bool :=
  ! fluidGridAllocCheck alloc

/-- Two buffers agree on every in-grid cell (`x, y < N`).  Store writes keep
stale data outside the `N×N` window (the model's functions are total), so
buffer contents are always compared on the grid window only. -/
def gridEqOn (N : Nat) (g g2 : Grid) : Prop :=
  ∀ x y, x < N → y < N → g x y = g2 x y

/-- The constant buffer. -/
def constGrid (c : ℚ) : Grid := fun _ _ => c

/-- A constructor-shaped state (canonical buffer ids, all four velocity
buffers zero) with given density, previous-density and scratch contents. -/
def zeroVelState (D P T : Grid) : FGState :=
  { buf := fun i => if i = 0 then D else if i = 1 then P else if i = 6 then T else zeroGrid
    density := 0, prevDensity := 1
    velocityX := 2, prevVelocityX := 3
    velocityY := 4, prevVelocityY := 5
    tmp := 6 }

/-- The end-to-end scenario of the spec (§8): grid size 10, all buffers
freshly zeroed, `addDensity(5, 5, 100, dt=1)`, then
`step(dt=1, iterations=0, diffusionRate=0, viscosity=0, fadeRate=0)`. -/
def c1Final : FGState := stepG 10 1 0 0 0 0 (addDensityG 10 5 5 100 1 initState)

/-- Concrete density buffer for the zero-dt scenario: value 9 at the boundary
corner `(0,0)`, zero elsewhere (its boundary ring does not satisfy the
pass-through rule `setBounds` re-imposes). -/
def c3D : Grid := fun a b => if a = 0 ∧ b = 0 then 9 else 0

/-- Zero-dt scenario state: grid size 4, density `c3D`, all other buffers
zero, after `step(0, 2, 0, 0, 0)`. -/
def c3Start : FGState := zeroVelState c3D zeroGrid zeroGrid

/-- The zero-dt scenario after one `step(dt=0, iterations=2, 0, 0, 0)`. -/
def c3Final : FGState := stepG 4 0 2 0 0 0 c3Start

/-- Allocation outcome in which exactly the scratch (`tmp`) buffer allocation
fails: buffers 0-5 succeed, buffer 6 returns null. -/
def allocTmpFails : Fin 7 → Bool := fun i => decide (i.val ≠ 6)

/-! ## Basic lemmas about the store and bounds enforcement -/

lemma setBuf_same (st : Store) (i : Nat) (g : Grid) : setBuf st i g i = g := by
  simp [setBuf]

lemma setBuf_ne (st : Store) (i : Nat) (g : Grid) (j : Nat) (h : j ≠ i) :
    setBuf st i g j = st j := by
  simp [setBuf, h]

lemma inInterior_lt {N x y : Nat} (h : inInterior N x y) : x < N ∧ y < N := by
  obtain ⟨h1, h2, h3, h4⟩ := h
  omega

lemma reflectH_zero (dir : Direction) : reflectH dir 0 = 0 := by
  unfold reflectH
  split <;> simp

lemma reflectV_zero (dir : Direction) : reflectV dir 0 = 0 := by
  unfold reflectV
  split <;> simp

lemma setBoundsEdges_interior (dir : Direction) (N : Nat) (g : Grid) (x y : Nat)
    (h : inInterior N x y) : setBoundsEdges dir N g x y = g x y := by
  obtain ⟨h1, h2, h3, h4⟩ := h
  unfold setBoundsEdges
  rw [if_neg (by omega), if_neg (by omega), if_neg (by omega), if_neg (by omega)]

lemma setBoundsG_interior (dir : Direction) (N : Nat) (g : Grid) (x y : Nat)
    (h : inInterior N x y) : setBoundsG dir N g x y = g x y := by
  obtain ⟨h1, h2, h3, h4⟩ := h
  simp only [setBoundsG]
  rw [if_neg (by omega), if_neg (by omega), if_neg (by omega), if_neg (by omega)]
  exact setBoundsEdges_interior dir N g x y ⟨h1, h2, h3, h4⟩

lemma setBoundsEdges_congr (dir : Direction) (N : Nat) (g g2 : Grid)
    (h : ∀ a b, inInterior N a b → g a b = g2 a b) (a b : Nat)
    (ha : a < N) (hb : b < N)
    (hnc : ¬((a = 0 ∨ a = N - 1) ∧ (b = 0 ∨ b = N - 1))) :
    setBoundsEdges dir N g a b = setBoundsEdges dir N g2 a b := by
  unfold setBoundsEdges
  split_ifs with c1 c2 c3 c4
  · rw [h 1 b ⟨by omega, by omega, by omega, by omega⟩]
  · rw [h (N - 2) b ⟨by omega, by omega, by omega, by omega⟩]
  · rw [h a 1 ⟨by omega, by omega, by omega, by omega⟩]
  · rw [h a (N - 2) ⟨by omega, by omega, by omega, by omega⟩]
  · exact h a b ⟨by omega, by omega, by omega, by omega⟩

lemma setBoundsG_congr (dir : Direction) (N : Nat) (g g2 : Grid) (hN : 3 ≤ N)
    (h : ∀ a b, inInterior N a b → g a b = g2 a b) (x y : Nat)
    (hx : x < N) (hy : y < N) :
    setBoundsG dir N g x y = setBoundsG dir N g2 x y := by
  have hE := setBoundsEdges_congr dir N g g2 h
  simp only [setBoundsG]
  split_ifs with c1 c2 c3 c4
  · rw [hE 1 0 (by omega) (by omega) (by omega), hE 0 1 (by omega) (by omega) (by omega)]
  · rw [hE (N - 2) 0 (by omega) (by omega) (by omega),
      hE (N - 1) 1 (by omega) (by omega) (by omega)]
  · rw [hE 0 (N - 2) (by omega) (by omega) (by omega),
      hE 1 (N - 1) (by omega) (by omega) (by omega)]
  · rw [hE (N - 2) (N - 1) (by omega) (by omega) (by omega),
      hE (N - 1) (N - 2) (by omega) (by omega) (by omega)]
  · exact hE x y hx hy (by omega)

lemma setBoundsEdges_zeroGrid (dir : Direction) (N : Nat) (x y : Nat) :
    setBoundsEdges dir N zeroGrid x y = 0 := by
  unfold setBoundsEdges zeroGrid
  split_ifs <;> simp [reflectH_zero, reflectV_zero]

lemma setBoundsG_zeroGrid (dir : Direction) (N : Nat) (x y : Nat) :
    setBoundsG dir N zeroGrid x y = 0 := by
  simp only [setBoundsG]
  split_ifs <;> simp [setBoundsEdges_zeroGrid]

lemma setBoundsG_zero (dir : Direction) (N : Nat) (g : Grid) (hN : 3 ≤ N)
    (h : ∀ a b, inInterior N a b → g a b = 0) (x y : Nat) (hx : x < N) (hy : y < N) :
    setBoundsG dir N g x y = 0 := by
  rw [setBoundsG_congr dir N g zeroGrid hN (fun a b hab => by rw [h a b hab]; rfl) x y hx hy]
  exact setBoundsG_zeroGrid dir N x y

/-! ## The advection backtrace degenerates to the identity when the
displacement is zero -/

lemma advectCell_id (N : Nat) (dt : ℚ) (vX vY prev : Grid) (x y : Nat)
    (hx1 : 1 ≤ x) (hx2 : x + 2 ≤ N) (hy1 : 1 ≤ y) (hy2 : y + 2 ≤ N)
    (hvx : vX x y * (dt * (N : ℚ)) = 0) (hvy : vY x y * (dt * (N : ℚ)) = 0) :
    advectCell N dt vX vY prev x y = prev x y := by
  unfold advectCell
  simp only [hvx, hvy, sub_zero]
  have hxq1 : (1 : ℚ) ≤ (x : ℚ) := by exact_mod_cast hx1
  have hxq2 : (x : ℚ) + 2 ≤ (N : ℚ) := by exact_mod_cast hx2
  have hyq1 : (1 : ℚ) ≤ (y : ℚ) := by exact_mod_cast hy1
  have hyq2 : (y : ℚ) + 2 ≤ (N : ℚ) := by exact_mod_cast hy2
  rw [max_eq_left (by linarith), min_eq_left (by linarith),
    max_eq_left (by linarith), min_eq_left (by linarith)]
  rw [Int.floor_natCast, Int.toNat_natCast, Int.floor_natCast, Int.toNat_natCast]
  simp only [sub_self]
  ring

/-! ## Congruence and zero-propagation for the relaxation iteration -/

lemma setBuf_setBuf (st : Store) (i : Nat) (g g2 : Grid) :
    setBuf (setBuf st i g) i g2 = setBuf st i g2 := by
  funext j
  by_cases h : j = i <;> simp [setBuf, h]

lemma gridEqOn_refl (N : Nat) (g : Grid) : gridEqOn N g g := fun _ _ _ _ => rfl

lemma relaxIterG_congr (dir : Direction) (N : Nat) (k rs : ℚ) (prevG : Grid)
    (hN : 3 ≤ N) (g g2 : Grid) (h : gridEqOn N g g2) :
    gridEqOn N (relaxIterG dir N k rs prevG g) (relaxIterG dir N k rs prevG g2) := by
  intro x y hx hy
  unfold relaxIterG
  apply setBoundsG_congr _ _ _ _ hN _ x y hx hy
  intro a b hab
  obtain ⟨h1, h2, h3, h4⟩ := hab
  have hint : inInterior N a b := ⟨h1, h2, h3, h4⟩
  simp only [linearSolveLoopG]
  rw [if_pos hint, if_pos hint]
  rw [h a (b - 1) (by omega) (by omega), h a (b + 1) (by omega) (by omega),
    h (a - 1) b (by omega) (by omega), h (a + 1) b (by omega) (by omega)]

lemma relaxIterG_iterate_congr (dir : Direction) (N : Nat) (k rs : ℚ) (prevG : Grid)
    (hN : 3 ≤ N) (n : Nat) (g g2 : Grid) (h : gridEqOn N g g2) :
    gridEqOn N ((relaxIterG dir N k rs prevG)^[n] g) ((relaxIterG dir N k rs prevG)^[n] g2) := by
  induction n with
  | zero => simpa using h
  | succ n ih =>
    rw [Function.iterate_succ_apply', Function.iterate_succ_apply']
    exact relaxIterG_congr dir N k rs prevG hN _ _ ih

lemma relaxIterG_zero (dir : Direction) (N : Nat) (k rs : ℚ) (prevG : Grid)
    (hN : 3 ≤ N) (hprev : ∀ a b, inInterior N a b → prevG a b = 0)
    (g : Grid) (hg : gridEqOn N g zeroGrid) :
    gridEqOn N (relaxIterG dir N k rs prevG g) zeroGrid := by
  intro x y hx hy
  show _ = (0 : ℚ)
  unfold relaxIterG
  apply setBoundsG_zero _ _ _ hN _ x y hx hy
  intro a b hab
  obtain ⟨h1, h2, h3, h4⟩ := hab
  have hint : inInterior N a b := ⟨h1, h2, h3, h4⟩
  have z : ∀ u v, u < N → v < N → g u v = 0 := fun u v hu hv => hg u v hu hv
  simp only [linearSolveLoopG]
  rw [if_pos hint]
  rw [hprev a b hint, z a (b - 1) (by omega) (by omega),
    z a (b + 1) (by omega) (by omega), z (a - 1) b (by omega) (by omega),
    z (a + 1) b (by omega) (by omega)]
  ring

lemma relaxIterG_iterate_zero (dir : Direction) (N : Nat) (k rs : ℚ) (prevG : Grid)
    (hN : 3 ≤ N) (hprev : ∀ a b, inInterior N a b → prevG a b = 0)
    (n : Nat) (g : Grid) (hg : gridEqOn N g zeroGrid) :
    gridEqOn N ((relaxIterG dir N k rs prevG)^[n] g) zeroGrid := by
  induction n with
  | zero => simpa using hg
  | succ n ih =>
    rw [Function.iterate_succ_apply']
    exact relaxIterG_zero dir N k rs prevG hN hprev _ ih

/-! ## Characterisation of the relaxation loop: after `n` iterations the
buffer reachable through the local `arr` parameter holds the `n`-th Jacobi
iterate, the buffer reachable through the member `tmp` holds the `(n-1)`-th,
and the two pointers have been exchanged `n` times. -/

lemma if_even_succ {α : Sort _} (n : Nat) (u v : α) :
    (if Even (n + 1) then u else v) = (if Even n then v else u) := by
  rcases Nat.even_or_odd n with he | ho
  · have h1 : ¬ Even (n + 1) := by rw [Nat.even_add_one]; exact not_not_intro he
    rw [if_pos he, if_neg h1]
  · have he2 : ¬ Even n := Nat.not_even_iff_odd.mpr ho
    have h1 : Even (n + 1) := Nat.even_add_one.mpr he2
    rw [if_pos h1, if_neg he2]

lemma lsRun_spec (dir : Direction) (N : Nat) (k rs : ℚ) (p : Nat) (hN : 3 ≤ N) :
    ∀ (n : Nat) (st : Store) (a t : Nat), a ≠ t → p ≠ a → p ≠ t →
      (lsRun dir N k rs p n (st, a, t)).2 = (if Even n then (a, t) else (t, a)) ∧
      (∀ i, i ≠ a → i ≠ t → (lsRun dir N k rs p n (st, a, t)).1 i = st i) ∧
      gridEqOn N ((lsRun dir N k rs p n (st, a, t)).1 (if Even n then a else t))
        ((relaxIterG dir N k rs (st p))^[n] (st a)) ∧
      (∀ m, n = m + 1 →
        gridEqOn N ((lsRun dir N k rs p n (st, a, t)).1 (if Even n then t else a))
          ((relaxIterG dir N k rs (st p))^[m] (st a))) := by
  intro n
  induction n with
  | zero =>
    intro st a t hat hpa hpt
    refine ⟨by simp [lsRun], fun i _ _ => rfl, ?_, fun m hm => by omega⟩
    have h0 : (if Even 0 then a else t) = a := by simp
    simp only [lsRun, h0, Function.iterate_zero_apply]
    exact gridEqOn_refl N (st a)
  | succ n ih =>
    intro st a t hat hpa hpt
    -- one iteration: the stencil pass plus setBounds rewrite buffer t, the
    -- pointers swap
    have hiter : lsIter dir N k rs p (st, a, t) =
        (setBuf st t (setBoundsG dir N (linearSolveLoopG N k rs (st a) (st p) (st t))), t, a) := by
      unfold lsIter
      simp only [setBuf_same, setBuf_setBuf]
    have hrun : lsRun dir N k rs p (n + 1) (st, a, t) =
        lsRun dir N k rs p n
          (setBuf st t (setBoundsG dir N (linearSolveLoopG N k rs (st a) (st p) (st t))), t, a) := by
      show lsRun dir N k rs p n (lsIter dir N k rs p (st, a, t)) = _
      rw [hiter]
    set G := setBoundsG dir N (linearSolveLoopG N k rs (st a) (st p) (st t)) with hG
    set st2 := setBuf st t G with hst2
    obtain ⟨ih1, ih2, ih3, ih4⟩ := ih st2 t a (Ne.symm hat) hpt hpa
    have hst2p : st2 p = st p := setBuf_ne st t G p hpt
    have hst2a : st2 a = st a := setBuf_ne st t G a hat
    have hst2t : st2 t = G := setBuf_same st t G
    -- the buffer written in this iteration holds the first Jacobi iterate
    have hGfirst : gridEqOn N G (relaxIterG dir N k rs (st p) (st a)) := by
      intro x y hx hy
      unfold relaxIterG
      apply setBoundsG_congr _ _ _ _ hN _ x y hx hy
      intro u v huv
      simp only [linearSolveLoopG]
      rw [if_pos huv, if_pos huv]
    constructor
    · -- pointer parity
      rw [hrun, ih1, if_even_succ n]
    constructor
    · -- frame: buffers other than a and t are untouched
      intro i hia hit
      rw [hrun, ih2 i hit hia, hst2]
      exact setBuf_ne st t G i hit
    constructor
    · -- the current buffer holds the (n+1)-st iterate
      intro x y hx hy
      have hcur := ih3 x y hx hy
      rw [hst2p, hst2t] at hcur
      rw [hrun, if_even_succ n a t, hcur, Function.iterate_succ_apply]
      exact relaxIterG_iterate_congr dir N k rs (st p) hN n _ _ hGfirst x y hx hy
    · -- the other buffer holds the n-th iterate
      intro m hm x y hx hy
      have hmn : m = n := by omega
      subst hmn
      rw [hrun, if_even_succ m t a]
      match m with
      | 0 =>
        have h0 : (if Even 0 then a else t) = a := by simp
        have hrw : (lsRun dir N k rs p 0 (st2, t, a)).1 a = st2 a := rfl
        rw [h0, hrw, hst2a]
        simp
      | Nat.succ m0 =>
        have hoth := ih4 m0 rfl x y hx hy
        rw [hst2p, hst2t] at hoth
        rw [hoth, Function.iterate_succ_apply]
        exact relaxIterG_iterate_congr dir N k rs (st p) hN m0 _ _ hGfirst x y hx hy

/-! ## Corollaries used to trace `step` on zero-velocity states -/

lemma linearSolveG_even_zero (dir : Direction) (n N : Nat) (k s : ℚ) (a p t : Nat)
    (st : Store) (hN : 3 ≤ N) (he : Even n) (hat : a ≠ t) (hpa : p ≠ a) (hpt : p ≠ t)
    (ha : gridEqOn N (st a) zeroGrid) (hp : ∀ u v, inInterior N u v → st p u v = 0) :
    (linearSolveG dir n N k s a p st t).2.1 = a ∧
    (linearSolveG dir n N k s a p st t).2.2 = t ∧
    (∀ i, i ≠ a → i ≠ t → (linearSolveG dir n N k s a p st t).1 i = st i) ∧
    gridEqOn N ((linearSolveG dir n N k s a p st t).1 a) zeroGrid := by
  obtain ⟨h1, h2, h3, _⟩ := lsRun_spec dir N k (1 / s) p hN n st a t hat hpa hpt
  have hidsa : (if Even n then a else t) = a := if_pos he
  have hids : (if Even n then (a, t) else (t, a)) = (a, t) := if_pos he
  rw [hids] at h1
  rw [hidsa] at h3
  refine ⟨?_, ?_, h2, ?_⟩
  · show (lsRun dir N k (1 / s) p n (st, a, t)).2.1 = a
    rw [h1]
  · show (lsRun dir N k (1 / s) p n (st, a, t)).2.2 = t
    rw [h1]
  · intro x y hx hy
    show (lsRun dir N k (1 / s) p n (st, a, t)).1 a x y = zeroGrid x y
    rw [h3 x y hx hy]
    exact relaxIterG_iterate_zero dir N k (1 / s) (st p) hN hp n (st a) ha x y hx hy

lemma relaxIterG_k0 (dir : Direction) (N : Nat) (prevG g : Grid) (hN : 3 ≤ N) :
    gridEqOn N (relaxIterG dir N 0 1 prevG g) (setBoundsG dir N prevG) := by
  intro x y hx hy
  unfold relaxIterG
  apply setBoundsG_congr _ _ _ _ hN _ x y hx hy
  intro a b hab
  simp only [linearSolveLoopG]
  rw [if_pos hab]
  ring

lemma relaxIterG_k0_iterate (dir : Direction) (N : Nat) (prevG g : Grid) (hN : 3 ≤ N)
    (m : Nat) :
    gridEqOn N ((relaxIterG dir N 0 1 prevG)^[m + 1] g) (setBoundsG dir N prevG) := by
  rw [Function.iterate_succ_apply']
  exact relaxIterG_k0 dir N prevG _ hN

/-- Density diffusion at `dt = 0` with even, positive iteration count: the
buffer passed as the solve target ends up holding the previous buffer's
interior with boundary conditions applied, the member `tmp` returns to the
originally passed scratch buffer. -/
lemma diffuseG_dt0_even (dir : Direction) (n N : Nat) (rate : ℚ) (a p t : Nat)
    (st : Store) (hN : 3 ≤ N) (he : Even n) (hn : 1 ≤ n)
    (hat : a ≠ t) (hpa : p ≠ a) (hpt : p ≠ t) :
    (diffuseG dir n N 0 rate a p st t).2.1 = a ∧
    (diffuseG dir n N 0 rate a p st t).2.2 = t ∧
    (∀ i, i ≠ a → i ≠ t → (diffuseG dir n N 0 rate a p st t).1 i = st i) ∧
    gridEqOn N ((diffuseG dir n N 0 rate a p st t).1 a) (setBoundsG dir N (st p)) := by
  have hk : rate * (0 : ℚ) * (N : ℚ) * (N : ℚ) = 0 := by ring
  have hsc : 1 + 4 * (rate * (0 : ℚ) * (N : ℚ) * (N : ℚ)) = (1 : ℚ) := by ring
  have hd : diffuseG dir n N 0 rate a p st t = linearSolveG dir n N 0 1 a p st t := by
    simp only [diffuseG]
    rw [hk]
    norm_num
  rw [hd]
  have hrs : (1 : ℚ) / 1 = 1 := one_div_one
  obtain ⟨h1, h2, h3, _⟩ := lsRun_spec dir N 0 ((1 : ℚ) / 1) p hN n st a t hat hpa hpt
  have hidsa : (if Even n then a else t) = a := if_pos he
  have hids : (if Even n then (a, t) else (t, a)) = (a, t) := if_pos he
  rw [hids] at h1
  rw [hidsa] at h3
  refine ⟨?_, ?_, h2, ?_⟩
  · show (lsRun dir N 0 (1 / 1) p n (st, a, t)).2.1 = a
    rw [h1]
  · show (lsRun dir N 0 (1 / 1) p n (st, a, t)).2.2 = t
    rw [h1]
  · intro x y hx hy
    show (lsRun dir N 0 ((1 : ℚ) / 1) p n (st, a, t)).1 a x y = setBoundsG dir N (st p) x y
    rw [h3 x y hx hy, hrs]
    obtain ⟨m, hm⟩ : ∃ m, n = m + 1 := ⟨n - 1, by omega⟩
    subst hm
    exact relaxIterG_k0_iterate dir N (st p) (st a) hN m x y hx hy

lemma divergenceCell_zero (N : Nat) (velX velY : Grid)
    (hvx : gridEqOn N velX zeroGrid) (hvy : gridEqOn N velY zeroGrid)
    (u v : Nat) (h : inInterior N u v) : divergenceCell N velX velY u v = 0 := by
  obtain ⟨h1, h2, h3, h4⟩ := h
  unfold divergenceCell
  rw [hvx (u - 1) v (by omega) (by omega), hvx (u + 1) v (by omega) (by omega),
    hvy u (v - 1) (by omega) (by omega), hvy u (v + 1) (by omega) (by omega)]
  simp [zeroGrid]

lemma massConservX_zero_p (N : Nat) (p vel : Grid)
    (hp : gridEqOn N p zeroGrid) (hvel : gridEqOn N vel zeroGrid) :
    gridEqOn N (massConservX N p vel) zeroGrid := by
  intro x y hx hy
  unfold massConservX
  split_ifs with h
  · obtain ⟨h1, h2, h3, h4⟩ := h
    rw [hvel x y hx hy, hp (x - 1) y (by omega) (by omega), hp (x + 1) y (by omega) (by omega)]
    show (0 : ℚ) - 1/2 * (0 - 0) * (N : ℚ) = zeroGrid x y
    show (0 : ℚ) - 1/2 * (0 - 0) * (N : ℚ) = 0
    ring
  · exact hvel x y hx hy

lemma massConservY_zero_p (N : Nat) (p vel : Grid)
    (hp : gridEqOn N p zeroGrid) (hvel : gridEqOn N vel zeroGrid) :
    gridEqOn N (massConservY N p vel) zeroGrid := by
  intro x y hx hy
  unfold massConservY
  split_ifs with h
  · obtain ⟨h1, h2, h3, h4⟩ := h
    rw [hvel x y hx hy, hp x (y - 1) (by omega) (by omega), hp x (y + 1) (by omega) (by omega)]
    show (0 : ℚ) - 1/2 * (0 - 0) * (N : ℚ) = 0
    ring
  · exact hvel x y hx hy

/-- Projection on an (in-grid) all-zero velocity field: every touched buffer
ends all-zero in-grid, the returned member `tmp` is the one passed in when
the iteration count is even, and untouched buffers are framed. -/
lemma projectG_zero (n N : Nat) (vx vy pid did t : Nat) (st : Store)
    (hN : 3 ≤ N) (he : Even n)
    (hvxvy : vx ≠ vy) (hvxp : vx ≠ pid) (hvxd : vx ≠ did) (hvxt : vx ≠ t)
    (hvyp : vy ≠ pid) (hvyd : vy ≠ did) (hvyt : vy ≠ t)
    (hpd : pid ≠ did) (hpt : pid ≠ t) (hdt : did ≠ t)
    (hvx : gridEqOn N (st vx) zeroGrid) (hvy : gridEqOn N (st vy) zeroGrid) :
    (projectG n N vx vy pid did st t).2 = t ∧
    (∀ i, i ≠ vx → i ≠ vy → i ≠ pid → i ≠ did → i ≠ t →
      (projectG n N vx vy pid did st t).1 i = st i) ∧
    gridEqOn N ((projectG n N vx vy pid did st t).1 vx) zeroGrid ∧
    gridEqOn N ((projectG n N vx vy pid did st t).1 vy) zeroGrid ∧
    gridEqOn N ((projectG n N vx vy pid did st t).1 pid) zeroGrid := by
  -- name the intermediate stores of projectG
  set st1 := setBuf st did (projectHeightMapDiv N (st vx) (st vy) (st did)) with hst1
  set st2 := setBuf st1 pid (projectHeightMapP N (st1 pid)) with hst2
  set st3 := setBuf st2 did (setBoundsG Direction.NONE N (st2 did)) with hst3
  set st4 := setBuf st3 pid (setBoundsG Direction.NONE N (st3 pid)) with hst4
  set r := linearSolveG Direction.NONE n N 1 4 pid did st4 t with hr
  set st5 := r.1 with hst5
  set st6 := setBuf st5 vx (massConservX N (st5 pid) (st5 vx)) with hst6
  set st7 := setBuf st6 vy (massConservY N (st6 pid) (st6 vy)) with hst7
  set st8 := setBuf st7 vx (setBoundsG Direction.HORIZONTAL N (st7 vx)) with hst8
  set st9 := setBuf st8 vy (setBoundsG Direction.VERTICAL N (st8 vy)) with hst9
  have hproj : projectG n N vx vy pid did st t = (st9, r.2.2) := rfl
  -- contents of the heightmap outputs
  have hst1did : ∀ u v, inInterior N u v → st1 did u v = 0 := by
    intro u v huv
    rw [hst1, setBuf_same]
    unfold projectHeightMapDiv
    rw [if_pos huv]
    exact divergenceCell_zero N (st vx) (st vy) hvx hvy u v huv
  have hst2pid : ∀ u v, inInterior N u v → st2 pid u v = 0 := by
    intro u v huv
    rw [hst2, setBuf_same]
    unfold projectHeightMapP
    rw [if_pos huv]
  have hst3did : gridEqOn N (st3 did) zeroGrid := by
    intro x y hx hy
    rw [hst3, setBuf_same]
    apply setBoundsG_zero _ _ _ hN _ x y hx hy
    intro u v huv
    rw [hst2, setBuf_ne _ _ _ _ (Ne.symm hpd)]
    exact hst1did u v huv
  have hst4pid : gridEqOn N (st4 pid) zeroGrid := by
    intro x y hx hy
    rw [hst4, setBuf_same]
    apply setBoundsG_zero _ _ _ hN _ x y hx hy
    intro u v huv
    rw [hst3, setBuf_ne _ _ _ _ hpd]
    exact hst2pid u v huv
  have hst4did : gridEqOn N (st4 did) zeroGrid := by
    intro x y hx hy
    rw [hst4, setBuf_ne _ _ _ _ (Ne.symm hpd)]
    exact hst3did x y hx hy
  -- untouched buffers up to st4
  have hst4other : ∀ i, i ≠ pid → i ≠ did → st4 i = st i := by
    intro i hip hid
    rw [hst4, setBuf_ne _ _ _ _ hip, hst3, setBuf_ne _ _ _ _ hid,
      hst2, setBuf_ne _ _ _ _ hip, hst1, setBuf_ne _ _ _ _ hid]
  -- the pressure solve on the zero field
  have hsolve := linearSolveG_even_zero Direction.NONE n N 1 4 pid did t st4 hN he
    hpt (Ne.symm hpd) hdt hst4pid
    (fun u v huv => hst4did u v (inInterior_lt huv).1 (inInterior_lt huv).2)
  obtain ⟨_, hstmp, hsframe, hspid⟩ := hsolve
  have hst5pid : gridEqOn N (st5 pid) zeroGrid := hspid
  have hst5vx : gridEqOn N (st5 vx) zeroGrid := by
    intro x y hx hy
    rw [hst5, hsframe vx hvxp hvxt, hst4other vx hvxp hvxd]
    exact hvx x y hx hy
  have hst5vy : gridEqOn N (st5 vy) zeroGrid := by
    intro x y hx hy
    rw [hst5, hsframe vy hvyp hvyt, hst4other vy hvyp hvyd]
    exact hvy x y hx hy
  -- the mass-conservation pass keeps everything zero
  have hst6vx : gridEqOn N (st6 vx) zeroGrid := by
    intro x y hx hy
    rw [hst6, setBuf_same]
    exact massConservX_zero_p N (st5 pid) (st5 vx) hst5pid hst5vx x y hx hy
  have hst6pid : st6 pid = st5 pid := by
    rw [hst6, setBuf_ne _ _ _ _ (Ne.symm hvxp)]
  have hst7vy : gridEqOn N (st7 vy) zeroGrid := by
    intro x y hx hy
    rw [hst7, setBuf_same, hst6pid]
    apply massConservY_zero_p N (st5 pid) (st6 vy) hst5pid _ x y hx hy
    intro u v hu hv
    rw [hst6, setBuf_ne _ _ _ _ (Ne.symm hvxvy)]
    exact hst5vy u v hu hv
  have hst7vx : gridEqOn N (st7 vx) zeroGrid := by
    intro x y hx hy
    rw [hst7, setBuf_ne _ _ _ _ hvxvy]
    exact hst6vx x y hx hy
  have hst8vx : gridEqOn N (st8 vx) zeroGrid := by
    intro x y hx hy
    rw [hst8, setBuf_same]
    apply setBoundsG_zero _ _ _ hN _ x y hx hy
    intro u v huv
    exact hst7vx u v (inInterior_lt huv).1 (inInterior_lt huv).2
  have hst9vy : gridEqOn N (st9 vy) zeroGrid := by
    intro x y hx hy
    rw [hst9, setBuf_same]
    apply setBoundsG_zero _ _ _ hN _ x y hx hy
    intro u v huv
    have : st8 vy = st7 vy := by rw [hst8, setBuf_ne _ _ _ _ (Ne.symm hvxvy)]
    rw [this]
    exact hst7vy u v (inInterior_lt huv).1 (inInterior_lt huv).2
  rw [hproj]
  refine ⟨hstmp, ?_, ?_, ?_, ?_⟩
  · intro i hivx hivy hipid hidid hit
    show st9 i = st i
    rw [hst9, setBuf_ne _ _ _ _ hivy, hst8, setBuf_ne _ _ _ _ hivx,
      hst7, setBuf_ne _ _ _ _ hivy, hst6, setBuf_ne _ _ _ _ hivx,
      hst5, hsframe i hipid hit]
    exact hst4other i hipid hidid
  · intro x y hx hy
    show st9 vx x y = zeroGrid x y
    rw [hst9, setBuf_ne _ _ _ _ hvxvy]
    exact hst8vx x y hx hy
  · intro x y hx hy
    show st9 vy x y = zeroGrid x y
    exact hst9vy x y hx hy
  · intro x y hx hy
    show st9 pid x y = zeroGrid x y
    rw [hst9, setBuf_ne _ _ _ _ (Ne.symm hvyp), hst8, setBuf_ne _ _ _ _ (Ne.symm hvxp),
      hst7, setBuf_ne _ _ _ _ (Ne.symm hvyp), hst6pid]
    exact hst5pid x y hx hy

/-- Advection along an (in-grid) all-zero transport field: the written buffer
becomes the previous buffer's interior with boundary conditions applied;
every other buffer is untouched. -/
lemma advectG_zero_vel (dir : Direction) (N : Nat) (dt : ℚ)
    (arrId prevId vxId vyId : Nat) (st : Store) (hN : 3 ≤ N)
    (hvx : gridEqOn N (st vxId) zeroGrid) (hvy : gridEqOn N (st vyId) zeroGrid) :
    (∀ i, i ≠ arrId → (advectG dir N dt arrId prevId vxId vyId st) i = st i) ∧
    gridEqOn N ((advectG dir N dt arrId prevId vxId vyId st) arrId)
      (setBoundsG dir N (st prevId)) := by
  constructor
  · intro i hi
    simp only [advectG]
    rw [setBuf_ne _ _ _ _ hi, setBuf_ne _ _ _ _ hi]
  · intro x y hx hy
    simp only [advectG]
    rw [setBuf_same, setBuf_same]
    apply setBoundsG_congr _ _ _ _ hN _ x y hx hy
    intro u v huv
    unfold advectLoopG
    rw [if_pos huv]
    obtain ⟨h1, h2, h3, h4⟩ := huv
    apply advectCell_id N dt _ _ _ u v h1 h2 h3 h4
    · rw [hvx u v (by omega) (by omega)]
      show (0 : ℚ) * (dt * (N : ℚ)) = 0
      ring
    · rw [hvy u v (by omega) (by omega)]
      show (0 : ℚ) * (dt * (N : ℚ)) = 0
      ring

lemma fadeDensityG_rate_zero (N : Nat) (dt : ℚ) (g : Grid) (x y : Nat) :
    fadeDensityG N dt 0 g x y = g x y := by
  unfold fadeDensityG
  split_ifs with h
  · ring
  · rfl

lemma reflectH_NONE (v : ℚ) : reflectH Direction.NONE v = v := rfl

lemma reflectV_NONE (v : ℚ) : reflectV Direction.NONE v = v := rfl

lemma setBoundsEdges_NONE_const (N : Nat) (c : ℚ) (x y : Nat) :
    setBoundsEdges Direction.NONE N (constGrid c) x y = c := by
  unfold setBoundsEdges constGrid
  split_ifs <;> simp [reflectH_NONE, reflectV_NONE]

lemma setBoundsG_NONE_const (N : Nat) (c : ℚ) (x y : Nat) :
    setBoundsG Direction.NONE N (constGrid c) x y = c := by
  simp only [setBoundsG]
  split_ifs <;> simp [setBoundsEdges_NONE_const] <;> ring

lemma setBoundsG_idem_ongrid (dir : Direction) (N : Nat) (g : Grid) (hN : 3 ≤ N) :
    gridEqOn N (setBoundsG dir N (setBoundsG dir N g)) (setBoundsG dir N g) := by
  intro x y hx hy
  apply setBoundsG_congr _ _ _ _ hN _ x y hx hy
  intro a b hab
  exact setBoundsG_interior dir N g a b hab

lemma diffuseG_even_zero (dir : Direction) (n N : Nat) (dt rate : ℚ) (a p t : Nat)
    (st : Store) (hN : 3 ≤ N) (he : Even n) (hat : a ≠ t) (hpa : p ≠ a) (hpt : p ≠ t)
    (ha : gridEqOn N (st a) zeroGrid) (hp : ∀ u v, inInterior N u v → st p u v = 0) :
    (diffuseG dir n N dt rate a p st t).2.1 = a ∧
    (diffuseG dir n N dt rate a p st t).2.2 = t ∧
    (∀ i, i ≠ a → i ≠ t → (diffuseG dir n N dt rate a p st t).1 i = st i) ∧
    gridEqOn N ((diffuseG dir n N dt rate a p st t).1 a) zeroGrid := by
  simp only [diffuseG]
  exact linearSolveG_even_zero dir n N _ _ a p t st hN he hat hpa hpt ha hp

/-- Master trace of `step` on a canonical state whose four velocity buffers
are (in-grid) zero and whose fade rate is zero: the velocities come out all
zero, the member pointers end on the canonical ids, and the density buffer
(physical buffer 0) ends as the pass-through boundary closure of — for a
positive even iteration count at `dt = 0` — the original density, or — for
iteration count 0 — the original previous-density buffer (the zero-iteration
diffuse is a no-op, so after the two swaps the advection copies the previous
buffer into the density buffer). -/
lemma stepG_master (N n : Nat) (dt dRate visc : ℚ) (B0 : Store)
    (hN : 3 ≤ N) (he : Even n) (hcase : n = 0 ∨ dt = 0)
    (hb2 : gridEqOn N (B0 2) zeroGrid) (hb3 : gridEqOn N (B0 3) zeroGrid)
    (hb4 : gridEqOn N (B0 4) zeroGrid) (hb5 : gridEqOn N (B0 5) zeroGrid) :
    (stepG N dt n dRate visc 0 (FGState.mk B0 0 1 2 3 4 5 6)).density = 0 ∧
    (stepG N dt n dRate visc 0 (FGState.mk B0 0 1 2 3 4 5 6)).velocityX = 2 ∧
    (stepG N dt n dRate visc 0 (FGState.mk B0 0 1 2 3 4 5 6)).velocityY = 4 ∧
    gridEqOn N ((stepG N dt n dRate visc 0 (FGState.mk B0 0 1 2 3 4 5 6)).buf 2) zeroGrid ∧
    gridEqOn N ((stepG N dt n dRate visc 0 (FGState.mk B0 0 1 2 3 4 5 6)).buf 4) zeroGrid ∧
    gridEqOn N ((stepG N dt n dRate visc 0 (FGState.mk B0 0 1 2 3 4 5 6)).buf 0)
      (setBoundsG Direction.NONE N (if n = 0 then B0 1 else B0 0)) := by
  set r1 := diffuseG Direction.HORIZONTAL n N dt visc 3 2 B0 6 with hr1def
  set r2 := diffuseG Direction.VERTICAL n N dt visc 5 4 r1.1 r1.2.2 with hr2def
  set r3 := projectG n N 3 5 2 4 r2.1 r2.2.2 with hr3def
  set b4 := advectG Direction.HORIZONTAL N dt 2 3 3 5 r3.1 with hb4def
  set b5 := advectG Direction.VERTICAL N dt 4 5 3 5 b4 with hb5def
  set r4 := projectG n N 2 4 3 5 b5 r3.2 with hr4def
  set r5 := diffuseG Direction.NONE n N dt dRate 1 0 r4.1 r4.2 with hr5def
  set b8 := advectG Direction.NONE N dt 0 1 2 4 r5.1 with hb8def
  set b9 := setBuf b8 0 (fadeDensityG N dt 0 (b8 0)) with hb9def
  have hstep : stepG N dt n dRate visc 0 (FGState.mk B0 0 1 2 3 4 5 6) =
      FGState.mk b9 0 1 2 3 4 5 r5.2.2 := rfl
  -- diffuse X velocity
  obtain ⟨_, ht1, h1f, h1a⟩ := diffuseG_even_zero Direction.HORIZONTAL n N dt visc 3 2 6 B0
    hN he (by decide) (by decide) (by decide) hb3
    (fun u v huv => hb2 u v (inInterior_lt huv).1 (inInterior_lt huv).2)
  -- diffuse Y velocity
  have hr2 : r2 = diffuseG Direction.VERTICAL n N dt visc 5 4 r1.1 6 := by
    rw [hr2def, ht1]
  have h15 : r1.1 5 = B0 5 := h1f 5 (by decide) (by decide)
  have h14 : r1.1 4 = B0 4 := h1f 4 (by decide) (by decide)
  obtain ⟨_, ht2x, h2fx, h2ax⟩ := diffuseG_even_zero Direction.VERTICAL n N dt visc 5 4 6 r1.1
    hN he (by decide) (by decide) (by decide) (by rw [h15]; exact hb5)
    (fun u v huv => by rw [h14]; exact hb4 u v (inInterior_lt huv).1 (inInterior_lt huv).2)
  have ht2 : r2.2.2 = 6 := by rw [hr2]; exact ht2x
  have h2f : ∀ i, i ≠ 5 → i ≠ 6 → r2.1 i = r1.1 i := by rw [hr2]; exact h2fx
  have h2a : gridEqOn N (r2.1 5) zeroGrid := by rw [hr2]; exact h2ax
  -- first projection
  have hr3 : r3 = projectG n N 3 5 2 4 r2.1 6 := by rw [hr3def, ht2]
  have h23 : r2.1 3 = r1.1 3 := h2f 3 (by decide) (by decide)
  obtain ⟨ht3x, h3fx, h3vxx, h3vyx, h3px⟩ := projectG_zero n N 3 5 2 4 6 r2.1 hN he
    (by decide) (by decide) (by decide) (by decide) (by decide) (by decide) (by decide)
    (by decide) (by decide) (by decide)
    (by rw [h23]; exact h1a) h2a
  have ht3 : r3.2 = 6 := by rw [hr3]; exact ht3x
  have h3f : ∀ i, i ≠ 3 → i ≠ 5 → i ≠ 2 → i ≠ 4 → i ≠ 6 → r3.1 i = r2.1 i := by
    rw [hr3]; exact h3fx
  have h3vx : gridEqOn N (r3.1 3) zeroGrid := by rw [hr3]; exact h3vxx
  have h3vy : gridEqOn N (r3.1 5) zeroGrid := by rw [hr3]; exact h3vyx
  -- self advection, X then Y
  obtain ⟨hb4f, hb4c⟩ := advectG_zero_vel Direction.HORIZONTAL N dt 2 3 3 5 r3.1 hN h3vx h3vy
  have hb42 : gridEqOn N (b4 2) zeroGrid := by
    intro x y hx hy
    rw [hb4def, hb4c x y hx hy]
    exact setBoundsG_zero _ _ _ hN
      (fun u v huv => h3vx u v (inInterior_lt huv).1 (inInterior_lt huv).2) x y hx hy
  have hb43 : b4 3 = r3.1 3 := by rw [hb4def]; exact hb4f 3 (by decide)
  have hb45 : b4 5 = r3.1 5 := by rw [hb4def]; exact hb4f 5 (by decide)
  obtain ⟨hb5f, hb5c⟩ := advectG_zero_vel Direction.VERTICAL N dt 4 5 3 5 b4 hN
    (by rw [hb43]; exact h3vx) (by rw [hb45]; exact h3vy)
  have hb54 : gridEqOn N (b5 4) zeroGrid := by
    intro x y hx hy
    rw [hb5def, hb5c x y hx hy]
    apply setBoundsG_zero _ _ _ hN _ x y hx hy
    intro u v huv
    rw [hb45]
    exact h3vy u v (inInterior_lt huv).1 (inInterior_lt huv).2
  have hb52 : gridEqOn N (b5 2) zeroGrid := by
    intro x y hx hy
    rw [hb5def, hb5f 2 (by decide)]
    exact hb42 x y hx hy
  -- second projection
  have hr4 : r4 = projectG n N 2 4 3 5 b5 6 := by rw [hr4def, ht3]
  obtain ⟨ht4x, h6fx, h6vxx, h6vyx, h6px⟩ := projectG_zero n N 2 4 3 5 6 b5 hN he
    (by decide) (by decide) (by decide) (by decide) (by decide) (by decide) (by decide)
    (by decide) (by decide) (by decide) hb52 hb54
  have ht4 : r4.2 = 6 := by rw [hr4]; exact ht4x
  have h6f : ∀ i, i ≠ 2 → i ≠ 4 → i ≠ 3 → i ≠ 5 → i ≠ 6 → r4.1 i = b5 i := by
    rw [hr4]; exact h6fx
  have h6vx : gridEqOn N (r4.1 2) zeroGrid := by rw [hr4]; exact h6vxx
  have h6vy : gridEqOn N (r4.1 4) zeroGrid := by rw [hr4]; exact h6vyx
  -- the density and previous-density buffers are untouched by the velocity phase
  have hD0 : r4.1 0 = B0 0 := by
    rw [h6f 0 (by decide) (by decide) (by decide) (by decide) (by decide),
      hb5def, hb5f 0 (by decide), hb4def, hb4f 0 (by decide),
      h3f 0 (by decide) (by decide) (by decide) (by decide) (by decide),
      h2f 0 (by decide) (by decide), h1f 0 (by decide) (by decide)]
  have hP1 : r4.1 1 = B0 1 := by
    rw [h6f 1 (by decide) (by decide) (by decide) (by decide) (by decide),
      hb5def, hb5f 1 (by decide), hb4def, hb4f 1 (by decide),
      h3f 1 (by decide) (by decide) (by decide) (by decide) (by decide),
      h2f 1 (by decide) (by decide), h1f 1 (by decide) (by decide)]
  -- density diffusion: no-op for n = 0, a bounded interior copy of the
  -- previous buffer (the original density) for even n ≥ 2 at dt = 0
  have hr5 : r5 = diffuseG Direction.NONE n N dt dRate 1 0 r4.1 6 := by rw [hr5def, ht4]
  have hdens : (∀ i, i ≠ 1 → i ≠ 6 → r5.1 i = r4.1 i) ∧
      gridEqOn N (setBoundsG Direction.NONE N (r5.1 1))
        (setBoundsG Direction.NONE N (if n = 0 then B0 1 else B0 0)) := by
    by_cases hn0 : n = 0
    · subst hn0
      have hid : r5.1 = r4.1 := by rw [hr5]; rfl
      refine ⟨fun i _ _ => by rw [hid], ?_⟩
      rw [if_pos rfl, hid, hP1]
      exact gridEqOn_refl N _
    · have hdt : dt = 0 := by
        rcases hcase with h | h
        · exact absurd h hn0
        · exact h
      subst hdt
      obtain ⟨_, _, h7fx, h7cx⟩ := diffuseG_dt0_even Direction.NONE n N dRate 1 0 6 r4.1
        hN he (by omega) (by decide) (by decide) (by decide)
      have h7f : ∀ i, i ≠ 1 → i ≠ 6 → r5.1 i = r4.1 i := by rw [hr5]; exact h7fx
      have h7c : gridEqOn N (r5.1 1) (setBoundsG Direction.NONE N (B0 0)) := by
        rw [hr5]
        intro x y hx hy
        rw [h7cx x y hx hy, hD0]
      refine ⟨h7f, ?_⟩
      rw [if_neg hn0]
      intro x y hx hy
      have step1 : setBoundsG Direction.NONE N (r5.1 1) x y =
          setBoundsG Direction.NONE N (setBoundsG Direction.NONE N (B0 0)) x y := by
        apply setBoundsG_congr _ _ _ _ hN _ x y hx hy
        intro a b hab
        exact h7c a b (inInterior_lt hab).1 (inInterior_lt hab).2
      rw [step1]
      exact setBoundsG_idem_ongrid Direction.NONE N (B0 0) hN x y hx hy
  obtain ⟨h5f, h5den⟩ := hdens
  -- final density advection along the (zero) velocity field, then fade
  have h512 : gridEqOn N (r5.1 2) zeroGrid := by
    intro x y hx hy
    rw [h5f 2 (by decide) (by decide)]
    exact h6vx x y hx hy
  have h514 : gridEqOn N (r5.1 4) zeroGrid := by
    intro x y hx hy
    rw [h5f 4 (by decide) (by decide)]
    exact h6vy x y hx hy
  obtain ⟨hb8f, hb8c⟩ := advectG_zero_vel Direction.NONE N dt 0 1 2 4 r5.1 hN h512 h514
  have hb80 : gridEqOn N (b8 0)
      (setBoundsG Direction.NONE N (if n = 0 then B0 1 else B0 0)) := by
    intro x y hx hy
    rw [hb8def, hb8c x y hx hy]
    exact h5den x y hx hy
  have hb82 : gridEqOn N (b8 2) zeroGrid := by
    intro x y hx hy
    rw [hb8def, hb8f 2 (by decide)]
    exact h512 x y hx hy
  have hb84 : gridEqOn N (b8 4) zeroGrid := by
    intro x y hx hy
    rw [hb8def, hb8f 4 (by decide)]
    exact h514 x y hx hy
  -- assemble
  rw [hstep]
  refine ⟨rfl, rfl, rfl, ?_, ?_, ?_⟩
  · intro x y hx hy
    show b9 2 x y = zeroGrid x y
    rw [hb9def, setBuf_ne _ _ _ _ (by decide)]
    exact hb82 x y hx hy
  · intro x y hx hy
    show b9 4 x y = zeroGrid x y
    rw [hb9def, setBuf_ne _ _ _ _ (by decide)]
    exact hb84 x y hx hy
  · intro x y hx hy
    show b9 0 x y = setBoundsG Direction.NONE N (if n = 0 then B0 1 else B0 0) x y
    rw [hb9def, setBuf_same, fadeDensityG_rate_zero]
    exact hb80 x y hx hy

/-! ## Claim theorems -/

/-- C10: calling `linearSolve` (and therefore `diffuse`) with iteration count
0 is a complete no-op: no stencil pass, no scratch-buffer exchange, no
boundary enforcement — the store is returned untouched and the local `arr`
pointer and member `tmp` keep their original buffer identities. -/
theorem c10_zero_iterations_noop (dir : Direction) (N : Nat) (k s dt rate : ℚ)
    (arrId prevId : Nat) (st : Store) (tmpId : Nat) :
    linearSolveG dir 0 N k s arrId prevId st tmpId = (st, arrId, tmpId) ∧
    diffuseG dir 0 N dt rate arrId prevId st tmpId = (st, arrId, tmpId) :=
  ⟨rfl, rfl⟩

/-- C4, counterexample: when exactly the scratch (`tmp`) allocation fails
(`allocTmpFails 6 = false`), the constructor's null check — which tests only
the six field buffers — does not throw, contradicting the claim that any
allocation failure is fatal. -/
theorem c4_counterexample :
    allocTmpFails 6 = false ∧ fluidGridConstructorThrows 10 allocTmpFails = false :=
  ⟨rfl, rfl⟩

/-- C4, amended: construction fails fatally exactly when one of the six field
buffer allocations (density, prevDensity, velocityX, prevVelocityX,
velocityY, prevVelocityY) fails; a failed scratch-buffer allocation is not
detected by the constructor's check. -/
theorem c4_amended (size : Nat) (alloc : Fin 7 → Bool) :
    fluidGridConstructorThrows size alloc = true ↔
      (alloc 0 = false ∨ alloc 1 = false ∨ alloc 2 = false ∨
       alloc 3 = false ∨ alloc 4 = false ∨ alloc 5 = false) := by
  unfold fluidGridConstructorThrows fluidGridAllocCheck
  cases h0 : alloc 0 <;> cases h1 : alloc 1 <;> cases h2 : alloc 2 <;>
    cases h3 : alloc 3 <;> cases h4 : alloc 4 <;> cases h5 : alloc 5 <;> simp

/-- C2: `advectLoop` does not restrict its writes to the assigned row range.
With the worker range `[1, 2)` on an 8×8 grid, the kernel still rewrites the
cell `(3, 5)` — row 5 lies outside the assigned range — because its row loop
iterates every interior row, ignoring `startIndex`/`endIndex`. -/
theorem c2_advectLoop_writes_outside_range :
    advectLoopG 1 2 8 1 zeroGrid zeroGrid (constGrid 1) zeroGrid 3 5 = 1 ∧
    zeroGrid 3 5 = 0 ∧ ¬ (1 ≤ 5 ∧ 5 < 2) := by
  refine ⟨?_, rfl, by omega⟩
  unfold advectLoopG
  rw [if_pos (by decide)]
  rw [advectCell_id 8 1 zeroGrid zeroGrid (constGrid 1) 3 5 (by decide) (by decide)
    (by decide) (by decide) (by simp [zeroGrid]) (by simp [zeroGrid])]
  rfl

/-- C6: one diffusion relaxation iteration writes at every interior cell the
value `(previousCell + k*(up+down+left+right)) / (1 + 4k)` with
`k = rate*dt*N²`, the neighbours read from the current buffer `a` and the
centre from the previous buffer `p`; the result lands in the scratch buffer
`t`, which is then exchanged with the current role (the returned local `arr`
pointer is the original scratch buffer). -/
theorem c6_diffusion_iteration_formula (dir : Direction) (N : Nat) (dt rate : ℚ)
    (a p t : Nat) (st : Store) (x y : Nat)
    (hat : a ≠ t) (hpt : p ≠ t) (hint : inInterior N x y) :
    (diffuseG dir 1 N dt rate a p st t).1 t x y =
      (st p x y + (rate * dt * (N : ℚ) * (N : ℚ)) *
        (st a x (y - 1) + st a x (y + 1) + st a (x - 1) y + st a (x + 1) y)) /
        (1 + 4 * (rate * dt * (N : ℚ) * (N : ℚ))) ∧
    (diffuseG dir 1 N dt rate a p st t).2.1 = t := by
  have hiter : diffuseG dir 1 N dt rate a p st t =
      (setBuf st t (setBoundsG dir N (linearSolveLoopG N (rate * dt * (N : ℚ) * (N : ℚ))
        (1 / (1 + 4 * (rate * dt * (N : ℚ) * (N : ℚ)))) (st a) (st p) (st t))), t, a) := by
    show lsIter dir N _ _ p (st, a, t) = _
    unfold lsIter
    simp only [setBuf_same, setBuf_setBuf]
  rw [hiter]
  refine ⟨?_, rfl⟩
  show setBuf st t _ t x y = _
  rw [setBuf_same, setBoundsG_interior _ _ _ _ _ hint]
  unfold linearSolveLoopG
  rw [if_pos hint]
  ring

/-- C6 witness at a concrete instance: `N = 3`, interior cell `(1,1)`,
zero store, `dt = rate = 1`, buffers `a = 1`, `p = 0`, `t = 2`. -/
theorem c6_witness :
    ((1 : Nat) ≠ 2 ∧ (0 : Nat) ≠ 2 ∧ inInterior 3 1 1) ∧
    ((diffuseG Direction.NONE 1 3 1 1 1 0 (fun _ => zeroGrid) 2).1 2 1 1 =
      (zeroGrid 1 1 + (1 * 1 * ((3 : Nat) : ℚ) * ((3 : Nat) : ℚ)) *
        (zeroGrid 1 0 + zeroGrid 1 2 + zeroGrid 0 1 + zeroGrid 2 1)) /
        (1 + 4 * (1 * 1 * ((3 : Nat) : ℚ) * ((3 : Nat) : ℚ))) ∧
    (diffuseG Direction.NONE 1 3 1 1 1 0 (fun _ => zeroGrid) 2).2.1 = 2) :=
  ⟨⟨by decide, by decide, by decide⟩,
    c6_diffusion_iteration_formula Direction.NONE 3 1 1 1 0 2 (fun _ => zeroGrid) 1 1
      (by decide) (by decide) (by decide)⟩

/-- C7: the divergence pass of projection writes at every interior cell
`div(x,y) = -0.5*((velX[left]-velX[right]) + (velY[up]-velY[down])) / N` and
sets the pressure field to zero at the same cells. -/
theorem c7_divergence_pass (N : Nat) (velX velY divOld pOld : Grid) (x y : Nat)
    (hint : inInterior N x y) :
    projectHeightMapDiv N velX velY divOld x y =
      -(1/2) * ((velX (x - 1) y - velX (x + 1) y) + (velY x (y - 1) - velY x (y + 1))) /
        (N : ℚ) ∧
    projectHeightMapP N pOld x y = 0 := by
  constructor
  · unfold projectHeightMapDiv divergenceCell
    rw [if_pos hint]
    ring
  · unfold projectHeightMapP
    rw [if_pos hint]

/-- C7 witness at a concrete instance: `N = 3`, interior cell `(1,1)`,
constant-1 velocity buffers. -/
theorem c7_witness :
    inInterior 3 1 1 ∧
    (projectHeightMapDiv 3 (constGrid 1) (constGrid 1) zeroGrid 1 1 =
      -(1/2) * ((constGrid 1 0 1 - constGrid 1 2 1) + (constGrid 1 1 0 - constGrid 1 1 2)) /
        ((3 : Nat) : ℚ) ∧
    projectHeightMapP 3 zeroGrid 1 1 = 0) :=
  ⟨by decide, c7_divergence_pass 3 (constGrid 1) (constGrid 1) zeroGrid zeroGrid 1 1 (by decide)⟩

/-- C8: advection along an all-zero transport velocity field reproduces the
previous field exactly at every interior cell: the backtrace lands on the
cell itself, the clamp keeps it there, the interpolation degenerates to the
identity, and `setBounds` does not touch interior cells. -/
theorem c8_advect_zero_velocity (dir : Direction) (N : Nat) (dt : ℚ)
    (arrId prevId velXId velYId : Nat) (st : Store) (x y : Nat)
    (hvx : st velXId = zeroGrid) (hvy : st velYId = zeroGrid)
    (hint : inInterior N x y) :
    (advectG dir N dt arrId prevId velXId velYId st) arrId x y = st prevId x y := by
  simp only [advectG]
  rw [setBuf_same, setBuf_same, setBoundsG_interior _ _ _ _ _ hint]
  unfold advectLoopG
  rw [if_pos hint]
  obtain ⟨h1, h2, h3, h4⟩ := hint
  rw [hvx, hvy]
  exact advectCell_id N dt zeroGrid zeroGrid (st prevId) x y h1 h2 h3 h4
    (by simp [zeroGrid]) (by simp [zeroGrid])

/-- C8 witness at a concrete instance: `N = 3`, interior cell `(1,1)`,
previous field constant 5, transport field zero. -/
theorem c8_witness :
    ((fun i => if i = 1 then constGrid 5 else zeroGrid : Store) 2 = zeroGrid ∧
     (fun i => if i = 1 then constGrid 5 else zeroGrid : Store) 3 = zeroGrid ∧
     inInterior 3 1 1) ∧
    (advectG Direction.NONE 3 1 0 1 2 3
        (fun i => if i = 1 then constGrid 5 else zeroGrid)) 0 1 1 =
      (fun i => if i = 1 then constGrid 5 else zeroGrid : Store) 1 1 1 :=
  ⟨⟨rfl, rfl, by decide⟩,
    c8_advect_zero_velocity Direction.NONE 3 1 0 1 2 3
      (fun i => if i = 1 then constGrid 5 else zeroGrid) 1 1 rfl rfl (by decide)⟩

/-- C5: which physical buffer holds the final relaxation result depends on
the parity of the iteration count: for even `n` (with `n ≥ 1`, hence
`n ≥ 2`) the buffer originally passed as the solve target (`a`) holds the
`n`-th (last) Jacobi iterate; for odd `n` the last iterate resides in the
original scratch buffer (`t`) while `a` holds the `(n-1)`-th (previous)
iterate.  The returned pointer pair records the parity of the swaps. -/
theorem c5_linear_solve_parity (dir : Direction) (n N : Nat) (k s : ℚ)
    (a p t : Nat) (st : Store)
    (hN : 3 ≤ N) (hn : 1 ≤ n) (hat : a ≠ t) (hpa : p ≠ a) (hpt : p ≠ t) :
    (linearSolveG dir n N k s a p st t).2 = (if Even n then (a, t) else (t, a)) ∧
    gridEqOn N ((linearSolveG dir n N k s a p st t).1 (if Even n then a else t))
      ((relaxIterG dir N k (1 / s) (st p))^[n] (st a)) ∧
    gridEqOn N ((linearSolveG dir n N k s a p st t).1 (if Even n then t else a))
      ((relaxIterG dir N k (1 / s) (st p))^[n - 1] (st a)) := by
  obtain ⟨h1, _, h3, h4⟩ := lsRun_spec dir N k (1 / s) p hN n st a t hat hpa hpt
  exact ⟨h1, h3, h4 (n - 1) (by omega)⟩

/-- C5 witness at a concrete instance: one iteration (`n = 1`, odd) on a
3×3 grid with zero store; buffers `a = 0`, `p = 1`, `t = 2`. -/
theorem c5_witness :
    (3 ≤ 3 ∧ 1 ≤ 1 ∧ (0 : Nat) ≠ 2 ∧ (1 : Nat) ≠ 0 ∧ (1 : Nat) ≠ 2) ∧
    ((linearSolveG Direction.NONE 1 3 1 4 0 1 (fun _ => zeroGrid) 2).2 =
      (if Even 1 then ((0 : Nat), (2 : Nat)) else (2, 0)) ∧
     gridEqOn 3 ((linearSolveG Direction.NONE 1 3 1 4 0 1 (fun _ => zeroGrid) 2).1
        (if Even 1 then 0 else 2))
      ((relaxIterG Direction.NONE 3 1 (1 / 4) zeroGrid)^[1] zeroGrid) ∧
     gridEqOn 3 ((linearSolveG Direction.NONE 1 3 1 4 0 1 (fun _ => zeroGrid) 2).1
        (if Even 1 then 2 else 0))
      ((relaxIterG Direction.NONE 3 1 (1 / 4) zeroGrid)^[1 - 1] zeroGrid)) :=
  ⟨⟨by decide, by decide, by decide, by decide, by decide⟩,
    c5_linear_solve_parity Direction.NONE 1 3 1 4 0 1 2 (fun _ => zeroGrid)
      (by decide) (by decide) (by decide) (by decide) (by decide)⟩

lemma interiorSum_fade (N : Nat) (dt fadeRate : ℚ) (g : Grid) :
    interiorSum N (fadeDensityG N dt fadeRate g) =
      (1 - dt * fadeRate * (N : ℚ)) * interiorSum N g := by
  unfold interiorSum
  rw [Finset.mul_sum]
  refine Finset.sum_congr rfl fun x _ => ?_
  rw [Finset.mul_sum]
  refine Finset.sum_congr rfl fun y _ => ?_
  by_cases h : inInterior N x y
  · simp only [fadeDensityG, if_pos h]
    ring
  · simp only [fadeDensityG, if_neg h]
    ring

lemma interiorSum_three (g : Grid) : interiorSum 3 g = g 1 1 := by
  unfold interiorSum
  rw [Finset.sum_range_succ, Finset.sum_range_succ, Finset.sum_range_succ,
    Finset.range_zero, Finset.sum_empty]
  rw [Finset.sum_range_succ, Finset.sum_range_succ, Finset.sum_range_succ,
    Finset.range_zero, Finset.sum_empty]
  rw [Finset.sum_range_succ, Finset.sum_range_succ, Finset.sum_range_succ,
    Finset.range_zero, Finset.sum_empty]
  rw [Finset.sum_range_succ, Finset.sum_range_succ, Finset.sum_range_succ,
    Finset.range_zero, Finset.sum_empty]
  norm_num [inInterior]

/-- C9, amended: whenever `0 < dt*fadeRate*size < 1` and the interior density
sum is nonnegative, the interior density sum after `fadeDensity` is at most
the sum before it (each interior cell is scaled by the same factor
`1 - dt*fadeRate*size`, which lies in `(0, 1)`). -/
theorem c9_amended (N : Nat) (g : Grid) (dt fadeRate : ℚ)
    (h1 : 0 < dt * fadeRate * (N : ℚ)) (h2 : dt * fadeRate * (N : ℚ) < 1)
    (h3 : 0 ≤ interiorSum N g) :
    interiorSum N (fadeDensityG N dt fadeRate g) ≤ interiorSum N g := by
  rw [interiorSum_fade]
  calc (1 - dt * fadeRate * (N : ℚ)) * interiorSum N g
      ≤ 1 * interiorSum N g := by
        apply mul_le_mul_of_nonneg_right _ h3
        linarith
    _ = interiorSum N g := one_mul _

/-- C9 witness at a concrete instance: 3×3 grid, constant density 1,
`dt = 1`, `fadeRate = 1/6`, so `dt*fadeRate*size = 1/2 ∈ (0,1)`. -/
theorem c9_witness :
    ((0 : ℚ) < 1 * (1/6) * ((3 : Nat) : ℚ) ∧ 1 * (1/6) * ((3 : Nat) : ℚ) < 1 ∧
      0 ≤ interiorSum 3 (constGrid 1)) ∧
    interiorSum 3 (fadeDensityG 3 1 (1/6) (constGrid 1)) ≤ interiorSum 3 (constGrid 1) :=
  ⟨⟨by norm_num, by norm_num, by rw [interiorSum_three]; norm_num [constGrid]⟩,
    c9_amended 3 (constGrid 1) 1 (1/6) (by norm_num) (by norm_num)
      (by rw [interiorSum_three]; norm_num [constGrid])⟩

/-- C9, counterexample: with the interior density `-1` everywhere on a 3×3
grid and `dt*fadeRate*size = 1/2 ∈ (0,1)`, the fade *raises* the interior
sum (from `-1` to `-1/2`), so the claimed monotonicity fails for density
fields with negative interior sum. -/
theorem c9_counterexample :
    (0 : ℚ) < 1 * (1/6) * ((3 : Nat) : ℚ) ∧ 1 * (1/6) * ((3 : Nat) : ℚ) < 1 ∧
    interiorSum 3 (constGrid (-1)) < interiorSum 3 (fadeDensityG 3 1 (1/6) (constGrid (-1))) := by
  refine ⟨by norm_num, by norm_num, ?_⟩
  rw [interiorSum_three, interiorSum_three]
  show (constGrid (-1) : Grid) 1 1 < fadeDensityG 3 1 (1/6) (constGrid (-1)) 1 1
  unfold fadeDensityG constGrid
  rw [if_pos (by decide : inInterior 3 1 1)]
  norm_num

/-- C1, counterexample: grid size 10, `addDensity(5,5,100,dt=1)` then
`step(1, 0, 0, 0, 0)` leaves the density at cell `(5,5)` equal to 0, not the
claimed 1000: with `iterations = 0` the density diffusion is a no-op, so
after the two buffer swaps in `step` the density advects from the still-zero
previous-density buffer, erasing the injected mass. -/
theorem c1_counterexample :
    c1Final.buf c1Final.density 5 5 = 0 ∧ (0 : ℚ) ≠ 1000 := by
  constructor
  · obtain ⟨_, _, _, _, _, m6⟩ :=
      stepG_master 10 0 1 0 0 (addDensityG 10 5 5 100 1 initState).buf
        (by omega) even_zero (Or.inl rfl)
        (fun x y _ _ => rfl) (fun x y _ _ => rfl) (fun x y _ _ => rfl) (fun x y _ _ => rfl)
    have h := m6 5 5 (by omega) (by omega)
    refine h.trans ?_
    rw [if_pos rfl]
    exact setBoundsG_zeroGrid Direction.NONE 10 5 5
  · norm_num

/-- C1, amended: the end-to-end scenario (grid 10, `addDensity(5,5,100,1)`,
`step(1, 0, 0, 0, 0)`) leaves the velocity fields all-zero and the *entire*
density field (cell `(5,5)` included) equal to 0: the zero-iteration diffuse
leaves the injected density behind in the previous-density buffer, and the
density advection then copies the zeroed previous buffer over it. -/
theorem c1_amended (x y : Nat) (hx : x < 10) (hy : y < 10) :
    c1Final.buf c1Final.density x y = 0 ∧
    c1Final.buf c1Final.velocityX x y = 0 ∧
    c1Final.buf c1Final.velocityY x y = 0 := by
  obtain ⟨_, _, _, m4, m5, m6⟩ :=
    stepG_master 10 0 1 0 0 (addDensityG 10 5 5 100 1 initState).buf
      (by omega) even_zero (Or.inl rfl)
      (fun x y _ _ => rfl) (fun x y _ _ => rfl) (fun x y _ _ => rfl) (fun x y _ _ => rfl)
  refine ⟨?_, m4 x y hx hy, m5 x y hx hy⟩
  have h := m6 x y hx hy
  refine h.trans ?_
  rw [if_pos rfl]
  exact setBoundsG_zeroGrid Direction.NONE 10 x y

/-- C1 witness at the cell of interest. -/
theorem c1_witness :
    ((5 : Nat) < 10 ∧ (5 : Nat) < 10) ∧
    (c1Final.buf c1Final.density 5 5 = 0 ∧
     c1Final.buf c1Final.velocityX 5 5 = 0 ∧
     c1Final.buf c1Final.velocityY 5 5 = 0) :=
  ⟨⟨by omega, by omega⟩, c1_amended 5 5 (by omega) (by omega)⟩

/-- C3, counterexample: `step(0, 2, 0, 0, 0)` on a grid-size-4 state with all
velocity buffers zero but a density whose boundary violates the pass-through
rule (value 9 at corner `(0,0)`) changes the density field: the corner is
rewritten to 0 by the boundary pass, so zero-dt idempotence fails for
arbitrary grid states even with an even iteration count. -/
theorem c3_counterexample :
    c3Start.buf c3Start.density 0 0 = 9 ∧
    c3Final.buf c3Final.density 0 0 = 0 ∧ (9 : ℚ) ≠ 0 := by
  refine ⟨rfl, ?_, by norm_num⟩
  obtain ⟨_, _, _, _, _, m6⟩ :=
    stepG_master 4 2 0 0 0 c3Start.buf
      (by omega) (by decide) (Or.inr rfl)
      (fun x y _ _ => rfl) (fun x y _ _ => rfl) (fun x y _ _ => rfl) (fun x y _ _ => rfl)
  have h := m6 0 0 (by omega) (by omega)
  refine h.trans ?_
  rw [if_neg (by omega)]
  show setBoundsG Direction.NONE 4 c3D 0 0 = 0
  unfold setBoundsG
  rw [if_pos ⟨rfl, rfl⟩]
  unfold setBoundsEdges
  rw [if_neg (by omega), if_neg (by omega), if_pos (by omega), if_pos (by omega)]
  show (1/2) * (reflectV Direction.NONE (c3D 1 1) + reflectH Direction.NONE (c3D 1 1)) = 0
  rw [reflectH_NONE, reflectV_NONE]
  norm_num [c3D]

/-- C3, amended: zero-dt idempotence holds for every grid state whose four
velocity buffers are all zero (in particular divergence-free) and whose
density boundary already satisfies the pass-through boundary rule, for every
*even* iteration count `n ≥ 2`, any diffusion/viscosity rates and fade rate
0: `step(0, n, diffusionRate, viscosity, 0)` leaves the density field
(numerically, in its original physical buffer) and both velocity fields
unchanged. -/
theorem c3_amended (N n : Nat) (diffusionRate viscosity : ℚ) (D P T : Grid)
    (hN : 3 ≤ N) (hn : 2 ≤ n) (he : Even n)
    (hD : ∀ x y, x < N → y < N → setBoundsG Direction.NONE N D x y = D x y) :
    (stepG N 0 n diffusionRate viscosity 0 (zeroVelState D P T)).density = 0 ∧
    (stepG N 0 n diffusionRate viscosity 0 (zeroVelState D P T)).velocityX = 2 ∧
    (stepG N 0 n diffusionRate viscosity 0 (zeroVelState D P T)).velocityY = 4 ∧
    (∀ x y, x < N → y < N →
      (stepG N 0 n diffusionRate viscosity 0 (zeroVelState D P T)).buf 0 x y = D x y ∧
      (stepG N 0 n diffusionRate viscosity 0 (zeroVelState D P T)).buf 2 x y = 0 ∧
      (stepG N 0 n diffusionRate viscosity 0 (zeroVelState D P T)).buf 4 x y = 0) := by
  obtain ⟨m1, m2, m3, m4, m5, m6⟩ :=
    stepG_master N n 0 diffusionRate viscosity (zeroVelState D P T).buf
      hN he (Or.inr rfl)
      (fun x y _ _ => rfl) (fun x y _ _ => rfl) (fun x y _ _ => rfl) (fun x y _ _ => rfl)
  refine ⟨m1, m2, m3, fun x y hx hy => ⟨?_, m4 x y hx hy, m5 x y hx hy⟩⟩
  have h := m6 x y hx hy
  rw [if_neg (by omega)] at h
  exact h.trans (hD x y hx hy)

/-- C3 witness at a concrete instance: `N = 4`, `n = 2`, constant density 3
(whose boundary satisfies the pass-through rule), previous density constant
5, scratch zero, rates 1. -/
theorem c3_witness :
    (3 ≤ 4 ∧ 2 ≤ 2 ∧ Even 2) ∧
    ((stepG 4 0 2 1 1 0 (zeroVelState (constGrid 3) (constGrid 5) zeroGrid)).density = 0 ∧
     (stepG 4 0 2 1 1 0 (zeroVelState (constGrid 3) (constGrid 5) zeroGrid)).velocityX = 2 ∧
     (stepG 4 0 2 1 1 0 (zeroVelState (constGrid 3) (constGrid 5) zeroGrid)).velocityY = 4 ∧
     (∀ x y, x < 4 → y < 4 →
       (stepG 4 0 2 1 1 0 (zeroVelState (constGrid 3) (constGrid 5) zeroGrid)).buf 0 x y =
         constGrid 3 x y ∧
       (stepG 4 0 2 1 1 0 (zeroVelState (constGrid 3) (constGrid 5) zeroGrid)).buf 2 x y = 0 ∧
       (stepG 4 0 2 1 1 0 (zeroVelState (constGrid 3) (constGrid 5) zeroGrid)).buf 4 x y = 0)) :=
  ⟨⟨by omega, by omega, by decide⟩,
    c3_amended 4 2 1 1 (constGrid 3) (constGrid 5) zeroGrid (by omega) (by omega) (by decide)
      (fun x y _ _ => setBoundsG_NONE_const 4 3 x y)⟩
